import Mathlib

/-!
Verification of the scraping-and-persistence core of `my_data_app.py`
(CoinAfrique scraper).

The embedding models:
- the per-container field extraction inside `scrape_data` (lines 155-162),
- the page loop with its two broad exception handlers, the per-page commit,
  the final `read_sql` / `close` / conditional CSV export (lines 141-174),
- the pandas `drop_duplicates` de-duplication used at export time,
- the dashboard price cleaning in `plot_category_stats_lite` (lines 94-123).

External effects (HTTP fetch outcomes, sqlite insert/commit/read outcomes)
are supplied by an environment `Env` of oracles; the model threads the
database state (committed rows and the pending, not-yet-committed rows of
the connection's open transaction) explicitly.
-/

namespace MyDataApp

/-- One row of a category table: columns
`(type_item TEXT, price TEXT, address TEXT, image_link TEXT)`.
`image_link` is an `Option` because BeautifulSoup's `Tag.get('src')`
returns `None` (→ SQL `NULL`) when the attribute is absent. -/
structure Row where
  type_item : String
  price : String
  address : String
  image_link : Option String
deriving DecidableEq, Repr

/-- One ad-card container (`div.col.s6.m4.l3`) as the extractor sees it:
- `cardDescription`: text of `p.ad__card-description`, `none` if the element is missing;
- `cardPrice`: text of `p.ad__card-price`, `none` if the element is missing;
- `cardLocation`: `none` if `p.ad__card-location` is missing, `some none` if it
  exists but has no nested `span`, `some (some s)` when the span exists with text `s`;
- `cardImg`: `none` if `img.ad__card-img` is missing, `some attr` when the element
  exists, where `attr` is the value `Tag.get('src')` returns (`none` when the
  `src` attribute is absent — `get` does not raise in that case). -/
structure Container where
  cardDescription : Option String
  cardPrice : Option String
  cardLocation : Option (Option String)
  cardImg : Option (Option String)
deriving DecidableEq, Repr

/-- Python `str.replace(old, new)` over character lists: replace
non-overlapping occurrences left to right. Structural recursion on a fuel
bound so the kernel can evaluate it on concrete inputs. -/
def replaceCharsFuel (old new : List Char) : Nat → List Char → List Char
  | _, [] => []
  | 0, s => s
  | fuel + 1, c :: cs =>
      if old ≠ [] ∧ (c :: cs).take old.length = old then
        new ++ replaceCharsFuel old new fuel ((c :: cs).drop old.length)
      else c :: replaceCharsFuel old new fuel cs

/-- Python `str.replace(old, new)`: the fuel `s.length` always suffices since
every step consumes at least one character. -/
def replaceChars (old new s : List Char) : List Char :=
  replaceCharsFuel old new s.length s

/-- Python `str.strip()`: drop leading and trailing whitespace. -/
def stripChars (s : List Char) : List Char :=
  ((s.dropWhile Char.isWhitespace).reverse.dropWhile Char.isWhitespace).reverse

/-- Python `str.strip()` on a string. -/
def pyStrip (s : String) : String :=
  String.mk (stripChars s.data)

/-- Line 158: `.text.replace('CFA', '').replace(' ', '')` —
removes every occurrence of the substring `CFA` and every space character
(only `' '`, U+0020). -/
def stripPrice (p : String) : String :=
  String.mk (replaceChars [' '] [] (replaceChars ['C', 'F', 'A'] [] p.data))

/-- Lines 157-160: the four sequential lookups for one container. Any failing
lookup raises in Python and is caught by the inner `except: pass`, so the
container yields no record; this is modelled by the `Option` bind chain.
Evaluation order matches the source: description, price, location (then its
nested span), image element, then the total `get('src')`. -/
def extractContainer (c : Container) : Option Row := do
  let t ← c.cardDescription
  let p ← c.cardPrice
  let lspan ← c.cardLocation
  let a ← lspan
  let src ← c.cardImg
  pure ⟨pyStrip t, stripPrice p, pyStrip a, src⟩

/-- The records successfully extracted from a page's container list
(lines 155-162 with every insert succeeding). -/
def pageRows (cs : List Container) : List Row :=
  cs.filterMap extractContainer

/-- The inner `for container in containers` loop from container number `j` on:
a container whose extraction succeeds but whose `INSERT` (line 161) raises is
also swallowed by the inner `except: pass`; `ok j` tells whether the insert
for container number `j` (0-based) succeeds. -/
def insertedRowsFrom (ok : Nat → Bool) (j : Nat) : List Container → List Row
  | [] => []
  | c :: cs =>
      match extractContainer c with
      | some r =>
          if ok j then r :: insertedRowsFrom ok (j + 1) cs
          else insertedRowsFrom ok (j + 1) cs
      | none => insertedRowsFrom ok (j + 1) cs

/-- The records of one page that actually reach the table (lines 155-162). -/
def insertedRows (ok : Nat → Bool) (cs : List Container) : List Row :=
  insertedRowsFrom ok 0 cs

/-- Oracles for the effects of one `scrape_data` call:
- `schemaOk`: whether `CREATE TABLE IF NOT EXISTS` (line 144) succeeds;
- `fetch i`: the containers found on page `i`, or `none` when the GET or the
  parse raises (caught by the outer `except: pass`);
- `insertOk i j`: whether the insert of container `j` on page `i` succeeds;
- `commitOk i`: whether `conn.commit()` after page `i` succeeds (a failure is
  caught by the outer handler; the open transaction keeps its pending rows);
- `readOk`: whether the final `pd.read_sql_query` (line 167) succeeds. -/
structure Env where
  schemaOk : Bool
  fetch : Nat → Option (List Container)
  insertOk : Nat → Nat → Bool
  commitOk : Nat → Bool
  readOk : Bool

/-- State of the page loop: committed table rows, pending rows of the
connection's open transaction, and the trace of page indices for which a GET
was issued. -/
structure LoopState where
  committed : List Row
  pending : List Row
  attempts : List Nat
deriving DecidableEq, Repr

/-- One iteration of `for index in range(1, actual_pages + 1)` (lines 150-165).
The GET is always attempted; on fetch/parse failure the outer `except: pass`
skips extraction and the commit; otherwise the extracted-and-inserted rows
join the transaction and `conn.commit()` moves the pending rows into the
table when it succeeds. -/
def stepPage (env : Env) (s : LoopState) (i : Nat) : LoopState :=
  let s := { s with attempts := s.attempts ++ [i] }
  match env.fetch i with
  | none => s
  | some cs =>
      let pending := s.pending ++ insertedRows (env.insertOk i) cs
      if env.commitOk i then
        { s with committed := s.committed ++ pending, pending := [] }
      else
        { s with pending := pending }

/-- The whole page loop, started on a table already holding `init` rows. -/
def runPages (env : Env) (init : List Row) (n : Nat) : LoopState :=
  (List.range' 1 n).foldl (stepPage env) ⟨init, [], []⟩

/-- `df.drop_duplicates(inplace=True)` (line 172): keep the first occurrence
of each row, drop later exact duplicates, preserve the order of what remains. -/
def dropDuplicates {α : Type} [DecidableEq α] : List α → List α
  | [] => []
  | r :: rs => r :: dropDuplicates (rs.filter fun x => x ≠ r)
termination_by l => l.length
decreasing_by
  simp only [List.length_cons]
  exact Nat.lt_succ_of_le (List.length_filter_le _ _)

/-- Observable outcome of one `scrape_data` call:
- `connClosed`: whether `conn.close()` (line 168) was executed;
- `committed` / `pending`: final database state of the session;
- `csvWritten`: `some rows` iff `df.to_csv` (line 173) ran, with the rows written;
- `returned`: the dataframe returned to the caller, `none` when an uncaught
  exception propagated out of `scrape_data` instead. -/
structure Outcome where
  connClosed : Bool
  committed : List Row
  pending : List Row
  attempts : List Nat
  csvWritten : Option (List Row)
  returned : Option (List Row)
deriving DecidableEq, Repr

/-- The dataframe built by `pd.read_sql_query('SELECT * FROM …', conn)` on the
session's own connection: it sees the committed rows plus the still-pending
rows of its open transaction. -/
def sessionDf (s : LoopState) : List Row :=
  s.committed ++ s.pending

/-- Lines 141-174 of `my_data_app.py`. `CREATE TABLE` failure propagates before
the loop (connection never closed); after the loop, `read_sql` failure also
propagates before `conn.close()` is reached; otherwise the connection is
closed, and the dataframe is de-duplicated and written to CSV only when it is
non-empty. -/
def scrape_data (env : Env) (init : List Row) (user_pages max_limit : Nat) : Outcome :=
  if env.schemaOk then
    let actual_pages := min user_pages max_limit
    let s := runPages env init actual_pages
    if env.readOk then
      let df := sessionDf s
      if df.isEmpty then
        { connClosed := true, committed := s.committed, pending := s.pending,
          attempts := s.attempts, csvWritten := none, returned := some df }
      else
        let d := dropDuplicates df
        { connClosed := true, committed := s.committed, pending := s.pending,
          attempts := s.attempts, csvWritten := some d, returned := some d }
    else
      { connClosed := false, committed := s.committed, pending := s.pending,
        attempts := s.attempts, csvWritten := none, returned := none }
  else
    { connClosed := false, committed := init, pending := [],
      attempts := [], csvWritten := none, returned := none }

/-- The rows a single page contributes to the table when its commit succeeds:
nothing on fetch/parse failure, otherwise its successfully
extracted-and-inserted records. -/
def pageContribution (env : Env) (i : Nat) : List Row :=
  match env.fetch i with
  | none => []
  | some cs => insertedRows (env.insertOk i) cs

/-- Decimal value of a digit string. -/
def digitsVal (s : List Char) : Nat :=
  s.foldl (fun n c => 10 * n + (c.toNat - 48)) 0

/-- Dashboard (line 95-98): `pd.to_numeric(col.str.replace(r'[^\d]', '', regex=True),
errors='coerce')` — strip every non-digit character and parse; a string with no
digit at all becomes empty and coerces to NaN, modelled as `none`. -/
def cleanPrice (s : String) : Option Nat :=
  let ds := s.data.filter Char.isDigit
  if ds = [] then none else some (digitsVal ds)

/-- Dashboard line 99: `df.dropna(subset=['clean_price'])` — the rows feeding
the price-based aggregates (count, mean, max, histogram). -/
def df_clean (rows : List Row) : List Row :=
  rows.filter fun r => (cleanPrice r.price).isSome

/-- The numeric price column of `df_clean`, input of mean/max/histogram. -/
def cleanPriceColumn (rows : List Row) : List Nat :=
  (df_clean rows).filterMap fun r => cleanPrice r.price

/-- Dashboard line 117: `df[address_col].value_counts()` is computed on the
full dataframe, not on `df_clean`. -/
def addressColumn (rows : List Row) : List String :=
  rows.map (·.address)

/-- Dashboard line 123: `df[item_col].value_counts()`, also on the full frame. -/
def itemColumn (rows : List Row) : List String :=
  rows.map (·.type_item)

/-- `drop_duplicates` as the spec phrases it: walk the table in order and keep
each row on its first appearance. Written from the spec's words, to be
compared with `dropDuplicates` (the model of the pandas call). -/
def keepFirstOccurrences {α : Type} [DecidableEq α] (l : List α) : List α :=
  l.foldl (fun acc x => if x ∈ acc then acc else acc ++ [x]) []

/-- The spec's notion of a failed lookup for a container: "any lookup failure
(missing element, missing attribute)". Includes the missing-`src`-attribute
case. -/
def lookupFailure (c : Container) : Prop :=
  c.cardDescription = none ∨ c.cardPrice = none ∨ c.cardLocation = none ∨
    c.cardLocation = some none ∨ c.cardImg = none ∨ c.cardImg = some none

/-- The lookups that actually raise in the code: a missing element or a
missing nested span. `Tag.get('src')` on a present `img` element never
raises — it returns `None`. -/
def elementLookupFailure (c : Container) : Prop :=
  c.cardDescription = none ∨ c.cardPrice = none ∨ c.cardLocation = none ∨
    c.cardLocation = some none ∨ c.cardImg = none

/-- The price normalisation as the spec words it: remove the currency marker
and ALL whitespace. Written from the spec's sentence, to be compared with
`stripPrice`, the model of line 158. -/
def stripPriceSpec (p : String) : String :=
  String.mk ((replaceChars ['C', 'F', 'A'] [] p.data).filter fun ch => !ch.isWhitespace)

/-! ### Concrete scenario material -/

/-- A well-formed ad card. -/
def containerA : Container :=
  ⟨some "Chemise homme", some "12 500 CFA", some (some "Dakar"),
    some (some "img/a.png")⟩

/-- The record `containerA` extracts to. -/
def rowA : Row := ⟨"Chemise homme", "12500", "Dakar", some "img/a.png"⟩

/-- An ad card whose `img` element exists but carries no `src` attribute. -/
def containerNoSrc : Container :=
  ⟨some "Chemise homme", some "12 500 CFA", some (some "Dakar"), some none⟩

/-- An ad card with no location element. -/
def containerNoLoc : Container :=
  ⟨some "Chemise homme", some "12 500 CFA", none, some (some "img/a.png")⟩

/-- Environment where every effect succeeds and every page carries one good
ad card. -/
def envAllOk : Env :=
  ⟨true, fun _ => some [containerA], fun _ _ => true, fun _ => true, true⟩

/-- Environment where every fetch succeeds but every page is empty. -/
def envEmptyPages : Env :=
  ⟨true, fun _ => some [], fun _ _ => true, fun _ => true, true⟩

example : extractContainer containerA = some rowA := rfl

/-- Environment where page 2's fetch raises and everything else succeeds. -/
def envFetchFail2 : Env :=
  ⟨true, fun i => if i = 2 then none else some [containerA],
    fun _ _ => true, fun _ => true, true⟩

/-- Environment where pages 1 and 2 each carry the same single ad card, so
the same record is inserted under two different commits. -/
def envTwoCommits : Env :=
  ⟨true, fun i => if i ≤ 2 then some [containerA] else some [],
    fun _ _ => true, fun _ => true, true⟩

/-- Environment where every insert raises (and everything else succeeds). -/
def envInsertFail : Env :=
  ⟨true, fun _ => some [containerA], fun _ _ => false, fun _ => true, true⟩

/-- Environment where the final table read raises. -/
def envReadFail : Env :=
  ⟨true, fun _ => some [containerA], fun _ _ => true, fun _ => true, false⟩

/-- Environment where the schema creation raises. -/
def envSchemaFail : Env :=
  ⟨false, fun _ => some [containerA], fun _ _ => true, fun _ => true, true⟩

/-- Environment where every fetch and every commit fails. -/
def envAllFail : Env :=
  ⟨true, fun _ => none, fun _ _ => false, fun _ => false, true⟩

/-- A row whose price text carries no digit, so its numeric coercion fails. -/
def rowNoDigits : Row :=
  ⟨"Montre", "prix sur demande", "Thies", some "img/b.png"⟩

/-! ### Lemmas about `dropDuplicates` -/

theorem dropDuplicates_sublist {α : Type} [DecidableEq α] (l : List α) :
    (dropDuplicates l).Sublist l := by
  induction l using dropDuplicates.induct with
  | case1 => simp [dropDuplicates]
  | case2 r rs ih =>
      rw [dropDuplicates]
      exact (ih.trans (List.filter_sublist rs)).cons₂ r

theorem mem_dropDuplicates {α : Type} [DecidableEq α] (x : α) (l : List α) :
    x ∈ dropDuplicates l ↔ x ∈ l := by
  induction l using dropDuplicates.induct with
  | case1 => simp [dropDuplicates]
  | case2 r rs ih =>
      rw [dropDuplicates]
      by_cases hx : x = r
      · simp [hx]
      · rw [List.mem_cons, ih, List.mem_filter, List.mem_cons]
        simp [hx]

theorem nodup_dropDuplicates {α : Type} [DecidableEq α] (l : List α) :
    (dropDuplicates l).Nodup := by
  induction l using dropDuplicates.induct with
  | case1 => simp [dropDuplicates]
  | case2 r rs ih =>
      rw [dropDuplicates]
      refine List.nodup_cons.mpr ⟨fun hmem => ?_, ih⟩
      have := (mem_dropDuplicates r _).mp hmem
      rw [List.mem_filter] at this
      simp at this

theorem filter_dropDuplicates {α : Type} [DecidableEq α] (p : α → Bool) (l : List α) :
    (dropDuplicates l).filter p = dropDuplicates (l.filter p) := by
  induction l using dropDuplicates.induct generalizing p with
  | case1 => simp [dropDuplicates]
  | case2 r rs ih =>
      rw [dropDuplicates]
      by_cases hp : p r = true
      · rw [List.filter_cons_of_pos hp, ih, List.filter_cons_of_pos hp, dropDuplicates,
          List.filter_comm]
      · rw [List.filter_cons_of_neg hp, ih, List.filter_cons_of_neg hp, List.filter_comm]
        have hselr : ((rs.filter p).filter fun x => x ≠ r) = rs.filter p := by
          refine List.filter_eq_self.mpr fun a ha => ?_
          have hne : a ≠ r := by
            intro har
            rw [List.mem_filter] at ha
            exact hp (har ▸ ha.2)
          simp [hne]
        rw [hselr]

theorem dropDuplicates_idem {α : Type} [DecidableEq α] (l : List α) :
    dropDuplicates (dropDuplicates l) = dropDuplicates l := by
  induction l using dropDuplicates.induct with
  | case1 => simp [dropDuplicates]
  | case2 r rs ih =>
      rw [dropDuplicates, dropDuplicates, filter_dropDuplicates, List.filter_filter]
      have hfilter :
          (rs.filter fun a =>
              (fun x => decide (x ≠ r)) a && (fun x => decide (x ≠ r)) a) =
            rs.filter fun x => decide (x ≠ r) :=
        List.filter_congr fun a _ => Bool.and_self _
      rw [hfilter, ih]

theorem dropDuplicates_ne_nil {α : Type} [DecidableEq α] (l : List α) (h : l ≠ []) :
    dropDuplicates l ≠ [] := by
  cases l with
  | nil => exact absurd rfl h
  | cons r rs => rw [dropDuplicates]; exact List.cons_ne_nil _ _

theorem foldl_keepFirst {α : Type} [DecidableEq α] (l acc : List α) :
    (l.foldl (fun acc x => if x ∈ acc then acc else acc ++ [x]) acc) =
      acc ++ dropDuplicates (l.filter fun x => x ∉ acc) := by
  induction l generalizing acc with
  | nil => simp [dropDuplicates]
  | cons x xs ih =>
      rw [List.foldl_cons]
      by_cases hx : x ∈ acc
      · rw [if_pos hx, ih, List.filter_cons_of_neg (by simp [hx])]
      · rw [if_neg hx, ih, List.filter_cons_of_pos (by simp [hx]), dropDuplicates,
          List.append_assoc, List.singleton_append]
        have hpred : (xs.filter fun a => a ∉ acc ++ [x]) =
            ((xs.filter fun a => a ∉ acc).filter fun a => a ≠ x) := by
          rw [List.filter_filter]
          refine List.filter_congr fun a _ => ?_
          by_cases h1 : a = x <;> by_cases h2 : a ∈ acc <;>
            simp [h1, h2, List.mem_append]
        rw [hpred]

theorem dropDuplicates_eq_keepFirstOccurrences {α : Type} [DecidableEq α] (l : List α) :
    dropDuplicates l = keepFirstOccurrences l := by
  rw [keepFirstOccurrences, foldl_keepFirst, List.nil_append]
  have htrue : (l.filter fun x => x ∉ ([] : List α)) = l :=
    List.filter_eq_self.mpr fun a _ => by simp
  rw [htrue]

/-! ### Lemmas about the page loop -/

theorem stepPage_attempts (env : Env) (s : LoopState) (i : Nat) :
    (stepPage env s i).attempts = s.attempts ++ [i] := by
  unfold stepPage
  cases h : env.fetch i with
  | none => rfl
  | some cs =>
      simp only []
      split <;> rfl

theorem foldl_stepPage_attempts (env : Env) (l : List Nat) (s : LoopState) :
    (l.foldl (stepPage env) s).attempts = s.attempts ++ l := by
  induction l generalizing s with
  | nil => simp
  | cons i is ih =>
      rw [List.foldl_cons, ih, stepPage_attempts, List.append_assoc,
        List.singleton_append]

/-- While every commit succeeds, the loop keeps no pending rows and the table
grows by exactly each page's contribution, in page order. -/
theorem foldl_stepPage_allCommit (env : Env) (hc : ∀ i, env.commitOk i = true)
    (l : List Nat) (c : List Row) (a : List Nat) :
    (l.foldl (stepPage env) ⟨c, [], a⟩) =
      ⟨c ++ (l.map (pageContribution env)).flatten, [], a ++ l⟩ := by
  induction l generalizing c a with
  | nil => simp
  | cons i is ih =>
      rw [List.foldl_cons]
      have hstep : stepPage env ⟨c, [], a⟩ i =
          ⟨c ++ pageContribution env i, [], a ++ [i]⟩ := by
        unfold stepPage pageContribution
        cases h : env.fetch i with
        | none => simp [h]
        | some cs => simp [h, hc i]
      rw [hstep, ih]
      simp

theorem runPages_allCommit (env : Env) (hc : ∀ i, env.commitOk i = true)
    (init : List Row) (n : Nat) :
    runPages env init n =
      ⟨init ++ ((List.range' 1 n).map (pageContribution env)).flatten, [],
        List.range' 1 n⟩ := by
  rw [runPages, foldl_stepPage_allCommit env hc, List.nil_append]

theorem runPages_attempts (env : Env) (init : List Row) (n : Nat) :
    (runPages env init n).attempts = List.range' 1 n := by
  rw [runPages, foldl_stepPage_attempts, List.nil_append]

/-- `scrape_data` reports the loop state's fields unchanged whenever the
schema creation succeeded, whatever happens at read/export time. -/
theorem scrape_data_loopState (env : Env) (init : List Row) (u m : Nat)
    (hs : env.schemaOk = true) :
    (scrape_data env init u m).committed = (runPages env init (min u m)).committed ∧
    (scrape_data env init u m).pending = (runPages env init (min u m)).pending ∧
    (scrape_data env init u m).attempts = (runPages env init (min u m)).attempts := by
  simp only [scrape_data, hs, if_true]
  split
  · split
    · exact ⟨rfl, rfl, rfl⟩
    · exact ⟨rfl, rfl, rfl⟩
  · exact ⟨rfl, rfl, rfl⟩

/-! ### Lemmas about the extractor -/

theorem extractContainer_eq_some_iff (c : Container) (r : Row) :
    extractContainer c = some r ↔
      ∃ t p a src, c.cardDescription = some t ∧ c.cardPrice = some p ∧
        c.cardLocation = some (some a) ∧ c.cardImg = some src ∧
        r = ⟨pyStrip t, stripPrice p, pyStrip a, src⟩ := by
  obtain ⟨d, pr, lo, im⟩ := c
  cases d <;> cases pr <;> rcases lo with _ | (_ | _) <;> cases im <;>
    simp [extractContainer, eq_comm]

theorem extractContainer_eq_none_iff (c : Container) :
    extractContainer c = none ↔ elementLookupFailure c := by
  obtain ⟨d, pr, lo, im⟩ := c
  cases d <;> cases pr <;> rcases lo with _ | (_ | _) <;> cases im <;>
    simp [extractContainer, elementLookupFailure]

theorem pageRows_append_skip (pre post : List Container) (c : Container)
    (h : extractContainer c = none) :
    pageRows (pre ++ c :: post) = pageRows pre ++ pageRows post := by
  simp [pageRows, List.filterMap_append, List.filterMap_cons, h]

theorem insertedRowsFrom_allOk (ok : Nat → Bool) (hok : ∀ j, ok j = true)
    (j : Nat) (cs : List Container) :
    insertedRowsFrom ok j cs = pageRows cs := by
  induction cs generalizing j with
  | nil => rfl
  | cons c cs ih =>
      rw [insertedRowsFrom, pageRows, List.filterMap_cons]
      cases h : extractContainer c <;> simp [h, hok j, ih, pageRows]

theorem insertedRows_allOk (ok : Nat → Bool) (hok : ∀ j, ok j = true)
    (cs : List Container) : insertedRows ok cs = pageRows cs :=
  insertedRowsFrom_allOk ok hok 0 cs

/-! ### The claims -/

/-- C1: for every category and every requested page count in `[1, 120]`,
`scrape_data` computes `effective_pages = min(requested_pages, category_cap)`
and issues exactly one GET per index from `1` to `effective_pages`: the
session's fetch-attempt trace is exactly `[1, …, min user cap]`, whatever the
fetch, insert, commit and read oracles do. -/
theorem C1_effective_pages (env : Env) (init : List Row) (user cap : Nat)
    (hs : env.schemaOk = true) (_h1 : 1 ≤ user) (_h2 : user ≤ 120) :
    (scrape_data env init user cap).attempts = List.range' 1 (min user cap) ∧
    (scrape_data env init user cap).attempts.length = min user cap := by
  have h := (scrape_data_loopState env init user cap hs).2.2
  rw [h, runPages_attempts]
  exact ⟨rfl, List.length_range' _ _ _⟩

/-- C1 witness: category cap 8, requested 120 — exactly 8 fetch attempts,
pages 1 through 8. -/
theorem C1_effective_pages_witness :
    (scrape_data envEmptyPages [] 120 8).attempts = List.range' 1 (min 120 8) ∧
    (scrape_data envEmptyPages [] 120 8).attempts.length = min 120 8 :=
  C1_effective_pages envEmptyPages [] 120 8 rfl (by decide) (by decide)

/-- C2 counterexample: the claim reads "if any one of the four required
lookups (… image src attribute) fails, then extraction of that container
yields no record and no row is inserted". But `Tag.get('src')` does not raise
on a present `img` element lacking the attribute — it returns `None`, and a
row with a NULL image link is inserted: `containerNoSrc` exhibits a failed
src-attribute lookup that still produces a record. -/
theorem C2_counterexample :
    lookupFailure containerNoSrc ∧
    extractContainer containerNoSrc =
      some ⟨"Chemise homme", "12500", "Dakar", none⟩ := by
  constructor
  · right; right; right; right; right; rfl
  · rfl

/-- C2 (amended): if the description element, the price element, the location
element, its nested span, or the image element is missing, the container
yields no record and no row is inserted for it, and extraction of the
remaining containers on the page is unaffected (a missing `src` attribute on
a present image element instead yields a record with a NULL image link). -/
theorem C2_lookup_failure_skips_container (c : Container)
    (pre post : List Container) (h : elementLookupFailure c) :
    extractContainer c = none ∧
    pageRows (pre ++ c :: post) = pageRows pre ++ pageRows post ∧
    insertedRows (fun _ => true) (pre ++ c :: post) =
      pageRows pre ++ pageRows post := by
  have hnone : extractContainer c = none := (extractContainer_eq_none_iff c).mpr h
  refine ⟨hnone, pageRows_append_skip pre post c hnone, ?_⟩
  rw [insertedRows_allOk _ (fun _ => rfl), pageRows_append_skip pre post c hnone]

/-- C2 witness: a container with no location element is skipped while its two
well-formed siblings are both extracted. -/
theorem C2_lookup_failure_skips_container_witness :
    extractContainer containerNoLoc = none ∧
    pageRows ([containerA] ++ containerNoLoc :: [containerA]) =
      pageRows [containerA] ++ pageRows [containerA] ∧
    insertedRows (fun _ => true) ([containerA] ++ containerNoLoc :: [containerA]) =
      pageRows [containerA] ++ pageRows [containerA] :=
  C2_lookup_failure_skips_container containerNoLoc [containerA] [containerA]
    (Or.inr (Or.inr (Or.inl rfl)))

/-- C6 counterexample: the claim says the stored price is the raw text with
the currency marker and all whitespace removed, but line 158 removes only the
space character `' '`: on the raw text `"12\t500 CFA"` the code keeps the tab
while the claimed transformation removes it. -/
theorem C6_counterexample :
    stripPrice "12\t500 CFA" = "12\t500" ∧
    stripPriceSpec "12\t500 CFA" = "12500" ∧
    stripPrice "12\t500 CFA" ≠ stripPriceSpec "12\t500 CFA" := by
  refine ⟨rfl, rfl, ?_⟩
  decide

/-- C6 (amended): for every successfully extracted container, the stored
price equals the raw price text with every occurrence of the currency marker
`'CFA'` and every space character `' '` removed (other whitespace is kept;
no numeric conversion at extraction time — the stored field stays a string). -/
theorem C6_price_strip (c : Container) (p : String) (r : Row)
    (hp : c.cardPrice = some p) (hr : extractContainer c = some r) :
    r.price = String.mk (replaceChars [' '] []
      (replaceChars ['C', 'F', 'A'] [] p.data)) := by
  obtain ⟨t, p', a, src, hd, hp', hl, hi, hrow⟩ :=
    (extractContainer_eq_some_iff c r).mp hr
  rw [hp] at hp'
  obtain rfl : p = p' := Option.some.inj hp'
  rw [hrow]
  rfl

/-- C6 witness: the concrete raw text `"12 500 CFA"` is stored as `"12500"`. -/
theorem C6_price_strip_witness :
    rowA.price = String.mk (replaceChars [' '] []
      (replaceChars ['C', 'F', 'A'] [] "12 500 CFA".data)) :=
  C6_price_strip containerA "12 500 CFA" rowA rfl rfl

/-- C7: the export de-duplication step is idempotent — applying the
`drop_duplicates` transformation to an already de-duplicated table yields an
identical result. -/
theorem C7_dedup_idempotent (l : List Row) :
    dropDuplicates (dropDuplicates l) = dropDuplicates l :=
  dropDuplicates_idem l

/-- When schema creation and the final read both succeed, the connection is
closed and the export step behaves as lines 167-174 dictate: an empty table
is returned as-is with no CSV write, a non-empty one is de-duplicated,
written, and returned. -/
theorem scrape_data_read (env : Env) (init : List Row) (u m : Nat)
    (hs : env.schemaOk = true) (hr : env.readOk = true) :
    (scrape_data env init u m).connClosed = true ∧
    (sessionDf (runPages env init (min u m)) = [] →
      (scrape_data env init u m).csvWritten = none ∧
      (scrape_data env init u m).returned = some []) ∧
    (sessionDf (runPages env init (min u m)) ≠ [] →
      (scrape_data env init u m).csvWritten =
        some (dropDuplicates (sessionDf (runPages env init (min u m)))) ∧
      (scrape_data env init u m).returned =
        some (dropDuplicates (sessionDf (runPages env init (min u m))))) := by
  simp only [scrape_data, hs, hr, if_true]
  split
  · next h =>
      have he : sessionDf (runPages env init (min u m)) = [] := by
        simpa using h
      exact ⟨rfl, fun _ => ⟨rfl, by rw [he]⟩, fun hne => absurd he hne⟩
  · next h =>
      have hne : sessionDf (runPages env init (min u m)) ≠ [] := by
        simpa using h
      exact ⟨rfl, fun he => absurd he hne, fun _ => ⟨rfl, rfl⟩⟩

/-- C3: if the fetch (or parse) for page `k` fails while commits succeed, page
`k` contributes zero records, every page of `1..effective_pages` is still
attempted, and the committed table is the initial content followed by each
page's contribution in order — so records of pages after `k` are still
inserted and committed. -/
theorem C3_fetch_failure_resilience (env : Env) (init : List Row)
    (user cap k : Nat) (hs : env.schemaOk = true)
    (hc : ∀ i, env.commitOk i = true) (_hk1 : 1 ≤ k)
    (_hk2 : k ≤ min user cap) (hfail : env.fetch k = none) :
    pageContribution env k = [] ∧
    (scrape_data env init user cap).attempts = List.range' 1 (min user cap) ∧
    (scrape_data env init user cap).committed =
      init ++ ((List.range' 1 (min user cap)).map (pageContribution env)).flatten := by
  refine ⟨?_, ?_, ?_⟩
  · rw [pageContribution, hfail]
  · rw [(scrape_data_loopState env init user cap hs).2.2, runPages_attempts]
  · rw [(scrape_data_loopState env init user cap hs).1, runPages_allCommit env hc]

/-- C3 witness: page 2 of 3 fails; pages 1 and 3 are attempted and their
records committed. -/
theorem C3_fetch_failure_resilience_witness :
    pageContribution envFetchFail2 2 = [] ∧
    (scrape_data envFetchFail2 [] 3 119).attempts = List.range' 1 (min 3 119) ∧
    (scrape_data envFetchFail2 [] 3 119).committed =
      [] ++ ((List.range' 1 (min 3 119)).map (pageContribution envFetchFail2)).flatten :=
  C3_fetch_failure_resilience envFetchFail2 [] 3 119 2 rfl (fun _ => rfl)
    (by decide) (by decide) rfl

/-- C4: at session end the export reads the full table (committed plus
pending rows as seen by the session's own connection), de-duplicates it —
keeping the first occurrence of each row, order preserved (a sublist of the
table with no duplicates and the same members, equal to the keep-first
walk) — writes exactly that result to the CSV file and returns it to the
caller; in the two-identical-inserts-across-two-commits scenario the final
exported row count is 1. -/
theorem C4_export_dedup (env : Env) (init : List Row) (u m : Nat)
    (l : List Row) (hs : env.schemaOk = true) (hr : env.readOk = true)
    (hne : sessionDf (runPages env init (min u m)) ≠ []) :
    (scrape_data env init u m).csvWritten =
      some (dropDuplicates (sessionDf (runPages env init (min u m)))) ∧
    (scrape_data env init u m).returned =
      some (dropDuplicates (sessionDf (runPages env init (min u m)))) ∧
    (dropDuplicates l).Sublist l ∧
    (dropDuplicates l).Nodup ∧
    (∀ x, x ∈ dropDuplicates l ↔ x ∈ l) ∧
    dropDuplicates l = keepFirstOccurrences l ∧
    (scrape_data envTwoCommits [] 2 119).returned = some [rowA] := by
  obtain ⟨-, -, hexp⟩ := scrape_data_read env init u m hs hr
  obtain ⟨hcsv, hret⟩ := hexp hne
  refine ⟨hcsv, hret, dropDuplicates_sublist l, nodup_dropDuplicates l,
    fun x => mem_dropDuplicates x l, dropDuplicates_eq_keepFirstOccurrences l, ?_⟩
  obtain ⟨-, -, hexp2⟩ := scrape_data_read envTwoCommits [] 2 119 rfl rfl
  obtain ⟨-, hret2⟩ := hexp2 (by decide)
  rw [hret2]
  have hdf : sessionDf (runPages envTwoCommits [] (min 2 119)) = [rowA, rowA] := by
    decide
  rw [hdf, dropDuplicates]
  simp [dropDuplicates]

/-- C4 witness: the export equations at the concrete two-commit environment,
with the de-duplication properties at the table `[rowA, rowA]`. -/
theorem C4_export_dedup_witness :
    (scrape_data envTwoCommits [] 2 119).csvWritten =
      some (dropDuplicates (sessionDf (runPages envTwoCommits [] (min 2 119)))) ∧
    (scrape_data envTwoCommits [] 2 119).returned =
      some (dropDuplicates (sessionDf (runPages envTwoCommits [] (min 2 119)))) ∧
    (dropDuplicates [rowA, rowA]).Sublist [rowA, rowA] ∧
    (dropDuplicates [rowA, rowA]).Nodup ∧
    (∀ x, x ∈ dropDuplicates [rowA, rowA] ↔ x ∈ [rowA, rowA]) ∧
    dropDuplicates [rowA, rowA] = keepFirstOccurrences [rowA, rowA] ∧
    (scrape_data envTwoCommits [] 2 119).returned = some [rowA] :=
  C4_export_dedup envTwoCommits [] 2 119 [rowA, rowA] rfl rfl (by decide)

/-- C5 counterexample: the claim says a row-insert error propagates out of the
scrape routine and aborts the session, but the insert sits inside the inner
`except: pass`: with every insert failing, the session still runs to
completion — it returns a dataframe (here empty) and closes the connection
instead of aborting. -/
theorem C5_counterexample :
    envInsertFail.insertOk 1 0 = false ∧
    (scrape_data envInsertFail [] 1 119).returned = some [] ∧
    (scrape_data envInsertFail [] 1 119).connClosed = true := by
  decide

/-- C5 (amended): a schema-creation failure is indeed unhandled — it
propagates out of `scrape_data` and aborts the session before any page is
fetched, leaving the connection open; a row-insert failure, however, is
caught by the per-container handler: whatever the insert oracle does, the
session still returns a dataframe whenever schema creation and the final
read succeed. -/
theorem C5_persistence_failures (env : Env) (init : List Row) (u m : Nat) :
    (env.schemaOk = false →
      (scrape_data env init u m).returned = none ∧
      (scrape_data env init u m).connClosed = false ∧
      (scrape_data env init u m).attempts = []) ∧
    (env.schemaOk = true → env.readOk = true →
      (scrape_data env init u m).returned ≠ none) := by
  constructor
  · intro h
    simp [scrape_data, h]
  · intro hs hr
    obtain ⟨-, hemp, hne⟩ := scrape_data_read env init u m hs hr
    by_cases hdf : sessionDf (runPages env init (min u m)) = []
    · rw [(hemp hdf).2]
      exact Option.some_ne_none _
    · rw [(hne hdf).2]
      exact Option.some_ne_none _

/-- C5 witness: schema failure aborts (first part, at `envSchemaFail`);
universal insert failure does not abort (second part, at `envInsertFail`). -/
theorem C5_persistence_failures_witness :
    ((scrape_data envSchemaFail [] 1 119).returned = none ∧
      (scrape_data envSchemaFail [] 1 119).connClosed = false ∧
      (scrape_data envSchemaFail [] 1 119).attempts = []) ∧
    (scrape_data envInsertFail [] 1 119).returned ≠ none :=
  ⟨(C5_persistence_failures envSchemaFail [] 1 119).1 rfl,
    (C5_persistence_failures envInsertFail [] 1 119).2 rfl rfl⟩

/-- C8 counterexample: the claim says the connection is closed on every
execution path, including a failing final table read — but `conn.close()`
(line 168) sits after `read_sql` (line 167) with no `try/finally`: when the
read raises, the close is never executed. -/
theorem C8_counterexample :
    envReadFail.readOk = false ∧
    (scrape_data envReadFail [] 1 119).connClosed = false := by
  decide

/-- C8 (amended): on every path where schema creation and the final table
read succeed — including arbitrary page-fetch and commit failures — the
connection is closed before the session ends; when the final read (or the
schema creation) raises, the exception propagates and the connection is not
closed. -/
theorem C8_connection_closed (env : Env) (init : List Row) (u m : Nat)
    (hs : env.schemaOk = true) (hr : env.readOk = true) :
    (scrape_data env init u m).connClosed = true :=
  (scrape_data_read env init u m hs hr).1

/-- C8 witness: even when every fetch and every commit fails, the connection
is closed. -/
theorem C8_connection_closed_witness :
    (scrape_data envAllFail [] 5 119).connClosed = true :=
  C8_connection_closed envAllFail [] 5 119 rfl rfl

/-- The price column fed to the aggregates is the coercion of the full
table's price column with the failures dropped. -/
theorem cleanPriceColumn_eq (rows : List Row) :
    cleanPriceColumn rows = rows.filterMap fun r => cleanPrice r.price := by
  induction rows with
  | nil => rfl
  | cons r rs ih =>
      rw [cleanPriceColumn, df_clean, List.filter_cons] at *
      cases h : cleanPrice r.price with
      | none => simp [h, ih]
      | some v => simp [h, ih]

/-- C9: the dashboard reader coerces a price by stripping all non-digit
characters and parsing (`"12 500 CFA"` coerces to `12500`); a row whose
price fails this coercion is excluded from the rows feeding the price-based
aggregates (`df_clean`, whose price column feeds count, mean, max and the
histogram) but is retained in the columns feeding the categorical
aggregates (top locations, top item types). -/
theorem C9_price_coercion (rows : List Row) (r : Row) (hmem : r ∈ rows)
    (hfail : cleanPrice r.price = none) :
    cleanPrice "12 500 CFA" = some 12500 ∧
    r ∉ df_clean rows ∧
    cleanPriceColumn rows = rows.filterMap (fun x => cleanPrice x.price) ∧
    r.address ∈ addressColumn rows ∧
    r.type_item ∈ itemColumn rows := by
  refine ⟨rfl, ?_, cleanPriceColumn_eq rows, ?_, ?_⟩
  · intro hcl
    rw [df_clean, List.mem_filter, hfail] at hcl
    exact absurd hcl.2 (by decide)
  · exact List.mem_map_of_mem (·.address) hmem
  · exact List.mem_map_of_mem (·.type_item) hmem

/-- C9 witness: a digitless-price row among a table of two is dropped from
`df_clean` but keeps feeding the categorical columns. -/
theorem C9_price_coercion_witness :
    cleanPrice "12 500 CFA" = some 12500 ∧
    rowNoDigits ∉ df_clean [rowA, rowNoDigits] ∧
    cleanPriceColumn [rowA, rowNoDigits] =
      [rowA, rowNoDigits].filterMap (fun x => cleanPrice x.price) ∧
    rowNoDigits.address ∈ addressColumn [rowA, rowNoDigits] ∧
    rowNoDigits.type_item ∈ itemColumn [rowA, rowNoDigits] :=
  C9_price_coercion [rowA, rowNoDigits] rowNoDigits (by decide) (by decide)

/-- C10: when the table read at session end is empty, `scrape_data` performs
no CSV write at all (so a previous session's export file is left untouched)
and returns the empty table; the CSV file is written only when the table is
non-empty. -/
theorem C10_empty_table_no_export (env : Env) (init : List Row) (u m : Nat)
    (hs : env.schemaOk = true) (hr : env.readOk = true) :
    (sessionDf (runPages env init (min u m)) = [] →
      (scrape_data env init u m).csvWritten = none ∧
      (scrape_data env init u m).returned = some []) ∧
    ((scrape_data env init u m).csvWritten ≠ none →
      sessionDf (runPages env init (min u m)) ≠ []) := by
  obtain ⟨-, hemp, hne⟩ := scrape_data_read env init u m hs hr
  refine ⟨hemp, fun hcsv hdf => ?_⟩
  exact absurd (hemp hdf).1 hcsv

/-- C10 witness: five successfully fetched but empty pages — empty table, no
CSV write, empty dataframe returned. -/
theorem C10_empty_table_no_export_witness :
    ((scrape_data envEmptyPages [] 5 119).csvWritten = none ∧
      (scrape_data envEmptyPages [] 5 119).returned = some []) ∧
    ((scrape_data envEmptyPages [] 5 119).csvWritten ≠ none →
      sessionDf (runPages envEmptyPages [] (min 5 119)) ≠ []) :=
  ⟨(C10_empty_table_no_export envEmptyPages [] 5 119 rfl rfl).1 (by decide),
    (C10_empty_table_no_export envEmptyPages [] 5 119 rfl rfl).2⟩

end MyDataApp
